import Mathlib

/-!
Shallow embedding of the OAuth 2.1 authorization-code-with-PKCE flow of the
luvya travel MCP server, covering its two revisions:

* `Luvya`   — `src/luvya_server.py` (FastAPI revision: `/oauth/start`,
  `/oauth/token`, `LuvyaTokenVerifier.verify_token`, `verify_auth_token`,
  `generate_auth_token`, the `oauth_codes` and `user_sessions` dictionaries).
* `Fastmcp` — `src/luvya_server_fastmcp.py` (FastMCP revision: `/authorize`,
  `/token`, `generate_auth_token`).

Modelling conventions:

* Python dicts keyed by strings are association lists `List (String × α)`;
  `dictLookup` is `d[k]` / `k in d`, `dictErase` is `del d[k]`, and insertion
  is cons (lookup finds the most recent binding, as a dict overwrite would).
* `datetime.utcnow()` is an explicit `now : Nat` parameter (a timestamp in
  seconds); `timedelta(minutes=5)` is `5 * 60`, `timedelta(days=30)` is
  `30 * 24 * 60 * 60`.
* Optional HTTP parameters are `Option String`; a FastAPI default such as
  `response_type: str = "code"` becomes `req.response_type.getD "code"`, and
  Python truthiness tests `not x` on a string-or-None become `falsy`.
* `base64.urlsafe_b64encode(hashlib.sha256(v.encode()).digest()).decode().rstrip('=')`
  is an abstract parameter `cc : String → String` (the PKCE challenge
  computation): both hashing and base64 live in the Python standard library,
  not in this repository, and every endpoint property depends only on whether
  `cc code_verifier` equals the stored challenge.
* `jwt.encode(payload, secret, "HS256")` is modelled symbolically as the pair
  `Jwt.mk payload secret`; `jwt.decode(token, secret, ["HS256"])` succeeds
  exactly when the secrets agree and the `exp` claim has not passed, raising
  `ExpiredSignatureError` (here `JwtError.expiredSignature`) when the
  signature is good but `exp` is past, and `InvalidTokenError` (here
  `JwtError.invalidToken`) when the signature does not verify.
* The Supabase client is external: `get_supabase_user_data` (which swallows
  every exception and returns `None`/a data dict) is an abstract parameter
  `fetch : Option String → Option SupabaseUserData`, and the HTML pages
  rendered on success are collapsed to the constructor `AuthResponse.html`.
-/

namespace LuvyaMCP

/-- Lookup in an association-list model of a Python dict: `d.get(k)` /
`k in d`. Finds the most recently inserted binding first. -/
def dictLookup {α : Type} (d : List (String × α)) (k : String) : Option α :=
  match d with
  | [] => none
  | (k', v) :: rest => if k' = k then some v else dictLookup rest k

/-- Deletion `del d[k]`: removes every binding of key `k`. -/
def dictErase {α : Type} (d : List (String × α)) (k : String) :
    List (String × α) :=
  d.filter (fun p => p.1 != k)

/-- Python truthiness of a string-or-`None` parameter: `not x` holds when the
parameter is absent (`None`) or the empty string. -/
def falsy : Option String → Bool
  | none => true
  | some s => s.isEmpty

/-- Query parameters of the authorization endpoint (§4.1); every field is an
optional HTTP parameter, with the FastAPI defaults applied inside the
endpoint definitions. -/
structure AuthRequest where
  response_type : Option String
  client_id : Option String
  redirect_uri : Option String
  scope : Option String
  state : Option String
  code_challenge : Option String
  code_challenge_method : Option String
deriving Repr, DecidableEq

/-- Form parameters of the token endpoint (§4.2). -/
structure TokenRequest where
  grant_type : Option String
  code : Option String
  client_id : Option String
  client_secret : Option String
  redirect_uri : Option String
  code_verifier : Option String
deriving Repr, DecidableEq

/-- Result of the authorization endpoint: a JSON error object, or the HTML
consent page (whose markup is out of scope). -/
inductive AuthResponse
  | error (e : String)
  | html
deriving Repr, DecidableEq

namespace Luvya

/-- Default of `os.getenv("RAILWAY_PUBLIC_DOMAIN", ...)` in
`src/luvya_server.py`. -/
def base_url : String :=
  "https://luvya-python-mcp-production-abc123.up.railway.app"

/-- Default of `os.getenv("JWT_SECRET", ...)` in `src/luvya_server.py`. -/
def JWT_SECRET : String := "your-jwt-secret-key-here"

/-- The value stored in `oauth_codes[auth_code]` by `/oauth/start`
(`src/luvya_server.py:276`). The `user_id` and `session` keys are always
present (initially `None`, i.e. `none`); `/authorize` may later overwrite
them with a signed-in user's id and session id. -/
structure OAuthCode where
  client_id : String
  redirect_uri : String
  code_challenge : String
  code_challenge_method : String
  scope : String
  state : Option String
  expires_at : Nat
  user_id : Option String
  session : Option String
deriving Repr, DecidableEq

/-- The JWT payload built by `generate_auth_token` (`src/luvya_server.py:89`).
`user_id`/`sub` are `Option String` because the Python code can pass `None`
through; `email`/`role` are added only when Supabase user data is present. -/
structure JwtPayload where
  user_id : Option String
  sub : Option String
  exp : Nat
  iat : Nat
  iss : String
  aud : String
  client_id : String
  scope : String
  email : Option String
  role : Option String
deriving Repr, DecidableEq

/-- Symbolic model of a compact signed JWT: `jwt.encode(payload, secret,
"HS256")` determines the token exactly by its payload and signing secret. -/
structure Jwt where
  payload : JwtPayload
  secret : String
deriving Repr, DecidableEq

/-- The dict built in `oauth_token` from a signed-in session
(`src/luvya_server.py:1041`). -/
structure SupabaseUserData where
  email : Option String
  aud : String
  role : String
deriving Repr, DecidableEq

/-- The value stored in `user_sessions[session_id]` by `/sign-in`
(`src/luvya_server.py:601`). `supabase_user` records the truthiness of the
stored Supabase user object; `created_at` and `access_token` are never read
by the endpoints modelled here and are omitted. -/
structure Session where
  user_id : String
  email : String
  supabase_user : Bool
  expires_at : Nat
deriving Repr, DecidableEq

/-- Function `generate_auth_token(user_id, supabase_user_data)`
(`src/luvya_server.py:89-110`): builds the 30-day payload and signs it with
`JWT_SECRET`; when Supabase data is present it overwrites `email`, `aud` and
`role`. -/
def generate_auth_token (now : Nat) (user_id : Option String)
    (supabase_user_data : Option SupabaseUserData) : Jwt :=
  let payload : JwtPayload :=
    { user_id := user_id
      sub := user_id
      exp := now + 30 * 24 * 60 * 60
      iat := now
      iss := base_url
      aud := base_url ++ "/mcp"
      client_id := "chatgpt-mcp-client"
      scope := "user"
      email := none
      role := none }
  match supabase_user_data with
  | none => { payload := payload, secret := JWT_SECRET }
  | some d =>
      { payload :=
          { payload with email := d.email, aud := d.aud, role := some d.role }
        secret := JWT_SECRET }

/-- The distinct exceptions `jwt.decode` can raise: `ExpiredSignatureError`
and `InvalidTokenError` (covering a bad signature or malformed claims). -/
inductive JwtError
  | expiredSignature
  | invalidToken
deriving Repr, DecidableEq

/-- Decoding `jwt.decode(token, secret, algorithms=["HS256"])`: the signature is
checked first (a mismatched secret raises `InvalidTokenError`), then the
`exp` claim (a past expiry raises `ExpiredSignatureError`). -/
def jwtDecode (secret : String) (now : Nat) (t : Jwt) :
    Except JwtError JwtPayload :=
  if t.secret ≠ secret then .error .invalidToken
  else if t.payload.exp < now then .error .expiredSignature
  else .ok t.payload

/-- The record `LuvyaTokenVerifier.verify_token` builds on success
(`src/luvya_server.py:39-45`): the MCP `AccessToken` with the decoded
claims. -/
structure AccessToken where
  token : Jwt
  client_id : String
  subject : Option String
  scopes : List String
  claims : JwtPayload
deriving Repr, DecidableEq

/-- Method `LuvyaTokenVerifier.verify_token` (`src/luvya_server.py:27-52`): decodes
with `JWT_SECRET`; every decode exception — `ExpiredSignatureError` and
`InvalidTokenError` alike — is caught and mapped to `None`. On a successful
decode it rejects a payload without a `user_id` claim, re-checks expiry by
hand, and otherwise returns the `AccessToken`. (In this embedding every
payload carries the `user_id` field; `none` stands for a missing or null
claim.) -/
def verify_token (now : Nat) (token : Jwt) : Option AccessToken :=
  match jwtDecode JWT_SECRET now token with
  | .error _ => none
  | .ok payload =>
      if payload.user_id.isNone then none
      else if payload.exp < now then none
      else
        some { token := token
               client_id := payload.client_id
               subject := payload.user_id
               scopes := payload.scope.splitOn " "
               claims := payload }

/-- Function `verify_auth_token` (`src/luvya_server.py:112-120`): returns the decoded
payload's `user_id`, and `None` on either decode exception. -/
def verify_auth_token (now : Nat) (token : Jwt) : Option String :=
  match jwtDecode JWT_SECRET now token with
  | .error _ => none
  | .ok payload => payload.user_id

/-- The allow-list checked by `/oauth/start` (`src/luvya_server.py:268`). -/
def allowed_redirect_uris : List String :=
  ["https://chatgpt.com", "https://chat.openai.com"]

/-- The entry `/oauth/start` stores in `oauth_codes`
(`src/luvya_server.py:276-286`): PKCE challenge, scope, state, a 5-minute
expiry, and `user_id`/`session` both `None` until authentication. -/
def mkOAuthCode (req : AuthRequest) (now : Nat) : OAuthCode :=
  { client_id := req.client_id.getD ""
    redirect_uri := req.redirect_uri.getD ""
    code_challenge := req.code_challenge.getD ""
    code_challenge_method := req.code_challenge_method.getD "S256"
    scope := req.scope.getD "user"
    state := req.state
    expires_at := now + 5 * 60
    user_id := none
    session := none }

/-- Endpoint `/oauth/start` (`src/luvya_server.py:243-291`): validates the request,
checks the redirect allow-list, then stores a fresh code (the random
`secrets.token_urlsafe(32)` value is the parameter `auth_code`) and renders
the consent page. Returns the updated `oauth_codes` store and the
response. -/
def oauth_start (now : Nat) (auth_code : String)
    (store : List (String × OAuthCode)) (req : AuthRequest) :
    List (String × OAuthCode) × AuthResponse :=
  if req.response_type.getD "code" ≠ "code" then
    (store, .error "invalid_response_type")
  else if falsy req.client_id || falsy req.redirect_uri ||
      falsy req.code_challenge then
    (store, .error "missing_required_parameters")
  else if req.code_challenge_method.getD "S256" ≠ "S256" then
    (store, .error "invalid_code_challenge_method")
  else if !(allowed_redirect_uris.contains (req.redirect_uri.getD "")) then
    (store, .error "invalid_redirect_uri")
  else
    ((auth_code, mkOAuthCode req now) :: store, .html)

/-- Result of `/oauth/token`: a JSON error object, or the token response
`{"access_token", "token_type", "expires_in", "scope"}`. -/
inductive TokenResponse
  | error (e : String)
  | success (access_token : Jwt) (token_type : String) (expires_in : Nat)
      (scope : String)
deriving Repr, DecidableEq

/-- The Supabase user data recovered from the code's attached session inside
`oauth_token` (`src/luvya_server.py:1036-1044`): the stored entry always has
the `session` key (`None` until `/authorize` attaches one, and `None` is
never a key of `user_sessions`). -/
def session_supabase (sessions : List (String × Session))
    (stored_code : OAuthCode) : Option SupabaseUserData :=
  match stored_code.session with
  | none => none
  | some session_id =>
    match dictLookup sessions session_id with
    | none => none
    | some session_data =>
      if session_data.supabase_user then
        some { email := some session_data.email
               aud := "authenticated"
               role := "authenticated" }
      else none

/-- The Supabase user data used for the issued token
(`src/luvya_server.py:1036-1050`): the session's data if any, else a direct
fetch — attempted whenever `user_id != "mcp-user"`, which includes the
`user_id = None` case. -/
def token_supabase (fetch : Option String → Option SupabaseUserData)
    (sessions : List (String × Session)) (stored_code : OAuthCode) :
    Option SupabaseUserData :=
  let supa0 := session_supabase sessions stored_code
  if supa0.isNone && (stored_code.user_id != some "mcp-user") then
    fetch stored_code.user_id
  else supa0

/-- Endpoint `/oauth/token` (`src/luvya_server.py:993-1062`). `cc` is the PKCE
challenge computation, `fetch` is `get_supabase_user_data` (an external call
whose exceptions are swallowed), and `sessions` is the `user_sessions` dict.
On the expired path and on success the presented code is deleted from the
store; the returned pair is the updated store and the JSON response.
Note `stored_code.get("user_id", "mcp-user")`: the `user_id` key is always
present in a stored entry (it is created as `None`), so the `"mcp-user"`
default never applies and the value can be `None`. -/
def oauth_token (cc : String → String)
    (fetch : Option String → Option SupabaseUserData)
    (sessions : List (String × Session)) (now : Nat)
    (store : List (String × OAuthCode)) (req : TokenRequest) :
    List (String × OAuthCode) × TokenResponse :=
  if req.grant_type.getD "authorization_code" ≠ "authorization_code" then
    (store, .error "unsupported_grant_type")
  else if falsy req.code || falsy req.code_verifier then
    (store, .error "missing_required_parameters")
  else
    let code := req.code.getD ""
    match dictLookup store code with
    | none => (store, .error "invalid_grant")
    | some stored_code =>
      if stored_code.expires_at < now then
        (dictErase store code, .error "expired_code")
      else if req.redirect_uri ≠ some stored_code.redirect_uri then
        (store, .error "invalid_redirect_uri")
      else if cc (req.code_verifier.getD "") ≠ stored_code.code_challenge then
        (store, .error "invalid_code_verifier")
      else
        (dictErase store code,
         .success
           (generate_auth_token now stored_code.user_id
             (token_supabase fetch sessions stored_code))
           "Bearer" 3600 stored_code.scope)

end Luvya

namespace Fastmcp

/-- Default of `os.getenv("JWT_SECRET", ...)` in
`src/luvya_server_fastmcp.py`. -/
def JWT_SECRET : String := "UOtwEuQaKcLtBOPNmWxCfbP39Zj3xa3hUFoFNWfy-i0"

/-- The value stored in `oauth_codes[auth_code]` by `/authorize`
(`src/luvya_server_fastmcp.py:434-443`). Unlike the FastAPI revision, the
stored `user_id` is the placeholder string `"demo-user"` from the start and
there is no `session` key. -/
structure OAuthCode where
  client_id : String
  redirect_uri : String
  code_challenge : String
  code_challenge_method : String
  scope : String
  state : Option String
  expires_at : Nat
  user_id : String
deriving Repr, DecidableEq

/-- The JWT payload built by `generate_auth_token`
(`src/luvya_server_fastmcp.py:67-79`); in this revision `user_id` is always
a plain string. -/
structure JwtPayload where
  user_id : String
  sub : String
  exp : Nat
  iat : Nat
  iss : String
  aud : String
  client_id : String
  scope : String
deriving Repr, DecidableEq

/-- Symbolic signed JWT of the FastMCP revision. -/
structure Jwt where
  payload : JwtPayload
  secret : String
deriving Repr, DecidableEq

/-- Function `generate_auth_token(user_id)` (`src/luvya_server_fastmcp.py:67-79`);
`base_url` is shared with the FastAPI revision's default. -/
def generate_auth_token (now : Nat) (user_id : String) : Jwt :=
  { payload :=
      { user_id := user_id
        sub := user_id
        exp := now + 30 * 24 * 60 * 60
        iat := now
        iss := Luvya.base_url
        aud := Luvya.base_url ++ "/mcp"
        client_id := "chatgpt-mcp-client"
        scope := "user" }
    secret := JWT_SECRET }

/-- The entry `/authorize` stores in `oauth_codes`
(`src/luvya_server_fastmcp.py:434-443`). -/
def mkOAuthCode (req : AuthRequest) (now : Nat) : OAuthCode :=
  { client_id := req.client_id.getD ""
    redirect_uri := req.redirect_uri.getD ""
    code_challenge := req.code_challenge.getD ""
    code_challenge_method := req.code_challenge_method.getD "S256"
    scope := req.scope.getD "user"
    state := req.state
    expires_at := now + 5 * 60
    user_id := "demo-user" }

/-- Endpoint `/authorize` (`src/luvya_server_fastmcp.py:407-445`): same validation as
`/oauth/start` but with no redirect-URI allow-list. -/
def oauth_authorize (now : Nat) (auth_code : String)
    (store : List (String × OAuthCode)) (req : AuthRequest) :
    List (String × OAuthCode) × AuthResponse :=
  if req.response_type.getD "code" ≠ "code" then
    (store, .error "invalid_response_type")
  else if falsy req.client_id || falsy req.redirect_uri ||
      falsy req.code_challenge then
    (store, .error "missing_required_parameters")
  else if req.code_challenge_method.getD "S256" ≠ "S256" then
    (store, .error "invalid_code_challenge_method")
  else
    ((auth_code, mkOAuthCode req now) :: store, .html)

/-- Result of `/token` in the FastMCP revision. -/
inductive TokenResponse
  | error (e : String)
  | success (access_token : Jwt) (token_type : String) (expires_in : Nat)
      (scope : String)
deriving Repr, DecidableEq

/-- Endpoint `/token` (`src/luvya_server_fastmcp.py:591-642`): identical branch
structure to the FastAPI revision's `/oauth/token`; on success the token is
minted directly from the stored `user_id` (`stored_code.get("user_id",
"demo-user")`, where the key is always present with value `"demo-user"`). -/
def oauth_token (cc : String → String) (now : Nat)
    (store : List (String × OAuthCode)) (req : TokenRequest) :
    List (String × OAuthCode) × TokenResponse :=
  if req.grant_type.getD "authorization_code" ≠ "authorization_code" then
    (store, .error "unsupported_grant_type")
  else if falsy req.code || falsy req.code_verifier then
    (store, .error "missing_required_parameters")
  else
    let code := req.code.getD ""
    match dictLookup store code with
    | none => (store, .error "invalid_grant")
    | some stored_code =>
      if stored_code.expires_at < now then
        (dictErase store code, .error "expired_code")
      else if req.redirect_uri ≠ some stored_code.redirect_uri then
        (store, .error "invalid_redirect_uri")
      else if cc (req.code_verifier.getD "") ≠ stored_code.code_challenge then
        (store, .error "invalid_code_verifier")
      else
        (dictErase store code,
         .success (generate_auth_token now stored_code.user_id) "Bearer" 3600
           stored_code.scope)

end Fastmcp

/-! ### Concrete fixtures used by witnesses and counterexamples -/

/-- A valid authorize request (allow-listed redirect, S256 challenge). -/
def sampleAuthRequest : AuthRequest :=
  { response_type := some "code"
    client_id := some "c1"
    redirect_uri := some "https://chatgpt.com"
    scope := none
    state := none
    code_challenge := some "CH"
    code_challenge_method := some "S256" }

/-- A token request presenting the sample code with matching redirect and a
verifier. -/
def sampleTokenRequest : TokenRequest :=
  { grant_type := none
    code := some "abc123"
    client_id := none
    client_secret := none
    redirect_uri := some "https://chatgpt.com"
    code_verifier := some "ver" }

/-- The FastAPI revision's store right after minting `"abc123"` at time 0. -/
def sampleStore : List (String × Luvya.OAuthCode) :=
  [("abc123", Luvya.mkOAuthCode sampleAuthRequest 0)]

/-- The FastMCP revision's store right after minting `"abc123"` at time 0. -/
def sampleFStore : List (String × Fastmcp.OAuthCode) :=
  [("abc123", Fastmcp.mkOAuthCode sampleAuthRequest 0)]

/-- A concrete challenge computation under which the sample verifier `"ver"`
hashes to the stored challenge `"CH"`. -/
def ccCH : String → String := fun _ => "CH"

/-- A Supabase lookup that finds no user (`get_supabase_user_data` returning
`None`). -/
def noFetch : Option String → Option Luvya.SupabaseUserData := fun _ => none

/-- A JWT payload carrying a subject, with expiry at time 0. -/
def samplePayload : Luvya.JwtPayload :=
  { user_id := some "u1"
    sub := some "u1"
    exp := 0
    iat := 0
    iss := Luvya.base_url
    aud := Luvya.base_url ++ "/mcp"
    client_id := "chatgpt-mcp-client"
    scope := "user"
    email := none
    role := none }

/-! ### Dictionary and parameter lemmas -/

theorem dictLookup_erase {α : Type} (d : List (String × α)) (k : String) :
    dictLookup (dictErase d k) k = none := by
  induction d with
  | nil => rfl
  | cons p rest ih =>
    rw [dictErase, List.filter_cons]
    by_cases h : p.1 = k
    · simpa [h, dictErase] using ih
    · simp only [dictErase] at ih
      simp [bne_iff_ne, h, dictLookup, ih]

theorem dictLookup_cons {α : Type} (k : String) (v : α)
    (d : List (String × α)) : dictLookup ((k, v) :: d) k = some v := by
  simp [dictLookup]

theorem falsy_some_of_ne (s : String) (h : s ≠ "") :
    falsy (some s) = false := by
  show s.isEmpty = false
  rw [Bool.eq_false_iff]
  intro hs
  exact h ((String.isEmpty_iff s).mp hs)

/-! ### Branch lemmas for the FastAPI revision's `/oauth/token` -/

namespace Luvya

theorem oauth_token_success_eq (cc : String → String)
    (fetch : Option String → Option SupabaseUserData)
    (sessions : List (String × Session)) (now : Nat)
    (store : List (String × OAuthCode)) (req : TokenRequest)
    (sc : OAuthCode)
    (hgrant : req.grant_type.getD "authorization_code" = "authorization_code")
    (hcode : falsy req.code = false)
    (hverif : falsy req.code_verifier = false)
    (hlook : dictLookup store (req.code.getD "") = some sc)
    (hexp : ¬ sc.expires_at < now)
    (hred : req.redirect_uri = some sc.redirect_uri)
    (hcc : cc (req.code_verifier.getD "") = sc.code_challenge) :
    oauth_token cc fetch sessions now store req =
      (dictErase store (req.code.getD ""),
       .success
         (generate_auth_token now sc.user_id
           (token_supabase fetch sessions sc)) "Bearer" 3600 sc.scope) := by
  simp [oauth_token, hgrant, hcode, hverif, hlook, hexp, hred, hcc]

theorem oauth_token_unknown_code (cc : String → String)
    (fetch : Option String → Option SupabaseUserData)
    (sessions : List (String × Session)) (now : Nat)
    (store : List (String × OAuthCode)) (req : TokenRequest)
    (hgrant : req.grant_type.getD "authorization_code" = "authorization_code")
    (hcode : falsy req.code = false)
    (hverif : falsy req.code_verifier = false)
    (hlook : dictLookup store (req.code.getD "") = none) :
    oauth_token cc fetch sessions now store req =
      (store, .error "invalid_grant") := by
  simp [oauth_token, hgrant, hcode, hverif, hlook]

theorem oauth_token_expired (cc : String → String)
    (fetch : Option String → Option SupabaseUserData)
    (sessions : List (String × Session)) (now : Nat)
    (store : List (String × OAuthCode)) (req : TokenRequest)
    (sc : OAuthCode)
    (hgrant : req.grant_type.getD "authorization_code" = "authorization_code")
    (hcode : falsy req.code = false)
    (hverif : falsy req.code_verifier = false)
    (hlook : dictLookup store (req.code.getD "") = some sc)
    (hexp : sc.expires_at < now) :
    oauth_token cc fetch sessions now store req =
      (dictErase store (req.code.getD ""), .error "expired_code") := by
  simp [oauth_token, hgrant, hcode, hverif, hlook, hexp]

theorem oauth_token_redirect_mismatch (cc : String → String)
    (fetch : Option String → Option SupabaseUserData)
    (sessions : List (String × Session)) (now : Nat)
    (store : List (String × OAuthCode)) (req : TokenRequest)
    (sc : OAuthCode)
    (hgrant : req.grant_type.getD "authorization_code" = "authorization_code")
    (hcode : falsy req.code = false)
    (hverif : falsy req.code_verifier = false)
    (hlook : dictLookup store (req.code.getD "") = some sc)
    (hexp : ¬ sc.expires_at < now)
    (hred : req.redirect_uri ≠ some sc.redirect_uri) :
    oauth_token cc fetch sessions now store req =
      (store, .error "invalid_redirect_uri") := by
  simp [oauth_token, hgrant, hcode, hverif, hlook, hexp, hred]

theorem oauth_token_verifier_mismatch (cc : String → String)
    (fetch : Option String → Option SupabaseUserData)
    (sessions : List (String × Session)) (now : Nat)
    (store : List (String × OAuthCode)) (req : TokenRequest)
    (sc : OAuthCode)
    (hgrant : req.grant_type.getD "authorization_code" = "authorization_code")
    (hcode : falsy req.code = false)
    (hverif : falsy req.code_verifier = false)
    (hlook : dictLookup store (req.code.getD "") = some sc)
    (hexp : ¬ sc.expires_at < now)
    (hred : req.redirect_uri = some sc.redirect_uri)
    (hcc : cc (req.code_verifier.getD "") ≠ sc.code_challenge) :
    oauth_token cc fetch sessions now store req =
      (store, .error "invalid_code_verifier") := by
  simp [oauth_token, hgrant, hcode, hverif, hlook, hexp, hred, hcc]

end Luvya

/-! ### Branch lemmas for the FastMCP revision's `/token` -/

namespace Fastmcp

theorem token_success_eq (cc : String → String) (now : Nat)
    (store : List (String × OAuthCode)) (req : TokenRequest)
    (sc : OAuthCode)
    (hgrant : req.grant_type.getD "authorization_code" = "authorization_code")
    (hcode : falsy req.code = false)
    (hverif : falsy req.code_verifier = false)
    (hlook : dictLookup store (req.code.getD "") = some sc)
    (hexp : ¬ sc.expires_at < now)
    (hred : req.redirect_uri = some sc.redirect_uri)
    (hcc : cc (req.code_verifier.getD "") = sc.code_challenge) :
    oauth_token cc now store req =
      (dictErase store (req.code.getD ""),
       .success (generate_auth_token now sc.user_id) "Bearer" 3600
         sc.scope) := by
  simp [oauth_token, hgrant, hcode, hverif, hlook, hexp, hred, hcc]

theorem token_unknown_code (cc : String → String) (now : Nat)
    (store : List (String × OAuthCode)) (req : TokenRequest)
    (hgrant : req.grant_type.getD "authorization_code" = "authorization_code")
    (hcode : falsy req.code = false)
    (hverif : falsy req.code_verifier = false)
    (hlook : dictLookup store (req.code.getD "") = none) :
    oauth_token cc now store req = (store, .error "invalid_grant") := by
  simp [oauth_token, hgrant, hcode, hverif, hlook]

theorem token_expired (cc : String → String) (now : Nat)
    (store : List (String × OAuthCode)) (req : TokenRequest)
    (sc : OAuthCode)
    (hgrant : req.grant_type.getD "authorization_code" = "authorization_code")
    (hcode : falsy req.code = false)
    (hverif : falsy req.code_verifier = false)
    (hlook : dictLookup store (req.code.getD "") = some sc)
    (hexp : sc.expires_at < now) :
    oauth_token cc now store req =
      (dictErase store (req.code.getD ""), .error "expired_code") := by
  simp [oauth_token, hgrant, hcode, hverif, hlook, hexp]

theorem token_redirect_mismatch (cc : String → String) (now : Nat)
    (store : List (String × OAuthCode)) (req : TokenRequest)
    (sc : OAuthCode)
    (hgrant : req.grant_type.getD "authorization_code" = "authorization_code")
    (hcode : falsy req.code = false)
    (hverif : falsy req.code_verifier = false)
    (hlook : dictLookup store (req.code.getD "") = some sc)
    (hexp : ¬ sc.expires_at < now)
    (hred : req.redirect_uri ≠ some sc.redirect_uri) :
    oauth_token cc now store req = (store, .error "invalid_redirect_uri") := by
  simp [oauth_token, hgrant, hcode, hverif, hlook, hexp, hred]

theorem token_verifier_mismatch (cc : String → String) (now : Nat)
    (store : List (String × OAuthCode)) (req : TokenRequest)
    (sc : OAuthCode)
    (hgrant : req.grant_type.getD "authorization_code" = "authorization_code")
    (hcode : falsy req.code = false)
    (hverif : falsy req.code_verifier = false)
    (hlook : dictLookup store (req.code.getD "") = some sc)
    (hexp : ¬ sc.expires_at < now)
    (hred : req.redirect_uri = some sc.redirect_uri)
    (hcc : cc (req.code_verifier.getD "") ≠ sc.code_challenge) :
    oauth_token cc now store req = (store, .error "invalid_code_verifier") := by
  simp [oauth_token, hgrant, hcode, hverif, hlook, hexp, hred, hcc]

end Fastmcp

/-! ### Claim theorems -/

/-- C1: an authorization code minted by a valid authorize request and still
present in the code store, presented to the token endpoint with
`grant_type = "authorization_code"`, the stored redirect_uri and a matching
code verifier before expiry, is exchanged exactly once: the first call
succeeds with `{access_token, token_type: "Bearer", expires_in, scope}` and
deletes the code, and a second call with the same code fails with
`invalid_grant`. Proved for both revisions (`/oauth/token` of
`src/luvya_server.py` and `/token` of `src/luvya_server_fastmcp.py`). -/
theorem claim_C1_code_single_use (cc : String → String)
    (fetch : Option String → Option Luvya.SupabaseUserData)
    (sessions : List (String × Luvya.Session))
    (now₀ now : Nat) (c v : String) (areq : AuthRequest)
    (store₀ store : List (String × Luvya.OAuthCode))
    (fstore₀ fstore : List (String × Fastmcp.OAuthCode))
    (req : TokenRequest)
    (hmintL : (Luvya.oauth_start now₀ c store₀ areq).2 = AuthResponse.html)
    (hmintF :
      (Fastmcp.oauth_authorize now₀ c fstore₀ areq).2 = AuthResponse.html)
    (hlookL : dictLookup store c = some (Luvya.mkOAuthCode areq now₀))
    (hlookF : dictLookup fstore c = some (Fastmcp.mkOAuthCode areq now₀))
    (hc : c ≠ "") (hv : v ≠ "")
    (hgrant : req.grant_type.getD "authorization_code" = "authorization_code")
    (hcode : req.code = some c)
    (hverif : req.code_verifier = some v)
    (hred : req.redirect_uri = some (areq.redirect_uri.getD ""))
    (hcc : cc v = areq.code_challenge.getD "")
    (hnow : now ≤ now₀ + 5 * 60) :
    (∃ tok,
      Luvya.oauth_token cc fetch sessions now store req =
        (dictErase store c,
         Luvya.TokenResponse.success tok "Bearer" 3600
           (areq.scope.getD "user"))) ∧
    Luvya.oauth_token cc fetch sessions now (dictErase store c) req =
      (dictErase store c, Luvya.TokenResponse.error "invalid_grant") ∧
    (∃ ftok,
      Fastmcp.oauth_token cc now fstore req =
        (dictErase fstore c,
         Fastmcp.TokenResponse.success ftok "Bearer" 3600
           (areq.scope.getD "user"))) ∧
    Fastmcp.oauth_token cc now (dictErase fstore c) req =
      (dictErase fstore c, Fastmcp.TokenResponse.error "invalid_grant") := by
  have hfc : falsy req.code = false := by
    rw [hcode]; exact falsy_some_of_ne c hc
  have hfv : falsy req.code_verifier = false := by
    rw [hverif]; exact falsy_some_of_ne v hv
  have hgetc : req.code.getD "" = c := by rw [hcode]; rfl
  refine
    ⟨⟨Luvya.generate_auth_token now (Luvya.mkOAuthCode areq now₀).user_id
        (Luvya.token_supabase fetch sessions (Luvya.mkOAuthCode areq now₀)),
      ?_⟩, ?_,
     ⟨Fastmcp.generate_auth_token now (Fastmcp.mkOAuthCode areq now₀).user_id,
      ?_⟩, ?_⟩
  · have := Luvya.oauth_token_success_eq cc fetch sessions now store req
      (Luvya.mkOAuthCode areq now₀) hgrant hfc hfv (by rw [hgetc]; exact hlookL)
      (by simp [Luvya.mkOAuthCode]; omega)
      (by simpa [Luvya.mkOAuthCode] using hred)
      (by rw [hverif]; simpa [Luvya.mkOAuthCode] using hcc)
    rw [hgetc] at this
    rw [this]
    simp [Luvya.mkOAuthCode]
  · exact Luvya.oauth_token_unknown_code cc fetch sessions now _ req hgrant
      hfc hfv (by rw [hgetc]; exact dictLookup_erase store c)
  · have := Fastmcp.token_success_eq cc now fstore req
      (Fastmcp.mkOAuthCode areq now₀) hgrant hfc hfv
      (by rw [hgetc]; exact hlookF)
      (by simp [Fastmcp.mkOAuthCode]; omega)
      (by simpa [Fastmcp.mkOAuthCode] using hred)
      (by rw [hverif]; simpa [Fastmcp.mkOAuthCode] using hcc)
    rw [hgetc] at this
    rw [this]
    simp [Fastmcp.mkOAuthCode]
  · exact Fastmcp.token_unknown_code cc now _ req hgrant
      hfc hfv (by rw [hgetc]; exact dictLookup_erase fstore c)

/-- Witness for C1: the sample code `"abc123"` minted at time 0 is redeemed
at time 100 with the matching verifier, once. -/
theorem claim_C1_code_single_use_witness :
    (∃ tok,
      Luvya.oauth_token ccCH noFetch [] 100 sampleStore sampleTokenRequest =
        (dictErase sampleStore "abc123",
         Luvya.TokenResponse.success tok "Bearer" 3600 "user")) ∧
    Luvya.oauth_token ccCH noFetch [] 100 (dictErase sampleStore "abc123")
        sampleTokenRequest =
      (dictErase sampleStore "abc123",
       Luvya.TokenResponse.error "invalid_grant") ∧
    (∃ ftok,
      Fastmcp.oauth_token ccCH 100 sampleFStore sampleTokenRequest =
        (dictErase sampleFStore "abc123",
         Fastmcp.TokenResponse.success ftok "Bearer" 3600 "user")) ∧
    Fastmcp.oauth_token ccCH 100 (dictErase sampleFStore "abc123")
        sampleTokenRequest =
      (dictErase sampleFStore "abc123",
       Fastmcp.TokenResponse.error "invalid_grant") :=
  claim_C1_code_single_use ccCH noFetch [] 0 100 "abc123" "ver"
    sampleAuthRequest [] sampleStore [] sampleFStore sampleTokenRequest
    rfl rfl rfl rfl (by decide) (by decide) rfl rfl rfl rfl rfl (by decide)

/-- Counterexample to C2 as stated: on a verifier mismatch both revisions
answer with the error string `"invalid_code_verifier"`, not
`"invalid_grant"` (`src/luvya_server.py:1030`,
`src/luvya_server_fastmcp.py:628`). -/
theorem claim_C2_counterexample :
    Luvya.oauth_token (fun _ => "XX") noFetch [] 100 sampleStore
        sampleTokenRequest =
      (sampleStore, Luvya.TokenResponse.error "invalid_code_verifier") ∧
    Fastmcp.oauth_token (fun _ => "XX") 100 sampleFStore sampleTokenRequest =
      (sampleFStore, Fastmcp.TokenResponse.error "invalid_code_verifier") ∧
    "invalid_code_verifier" ≠ "invalid_grant" :=
  ⟨rfl, rfl, by decide⟩

/-- C2 (amended): for a stored, unexpired code with matching redirect_uri,
the exchange succeeds iff the challenge computed from the presented
code_verifier equals the stored code_challenge; when it does not, the
exchange fails with error `"invalid_code_verifier"` (not `"invalid_grant"`
as the spec says) and the store is unchanged, so no token is issued. Proved
for both revisions. -/
theorem claim_C2_pkce_iff (cc : String → String)
    (fetch : Option String → Option Luvya.SupabaseUserData)
    (sessions : List (String × Luvya.Session)) (now : Nat)
    (store : List (String × Luvya.OAuthCode))
    (fstore : List (String × Fastmcp.OAuthCode))
    (req : TokenRequest) (c v : String)
    (sc : Luvya.OAuthCode) (fsc : Fastmcp.OAuthCode)
    (hlookL : dictLookup store c = some sc)
    (hlookF : dictLookup fstore c = some fsc)
    (hc : c ≠ "") (hv : v ≠ "")
    (hgrant : req.grant_type.getD "authorization_code" = "authorization_code")
    (hcode : req.code = some c)
    (hverif : req.code_verifier = some v)
    (hexpL : ¬ sc.expires_at < now) (hexpF : ¬ fsc.expires_at < now)
    (hredL : req.redirect_uri = some sc.redirect_uri)
    (hredF : req.redirect_uri = some fsc.redirect_uri) :
    ((∃ tok scope,
        Luvya.oauth_token cc fetch sessions now store req =
          (dictErase store c,
           Luvya.TokenResponse.success tok "Bearer" 3600 scope)) ↔
      cc v = sc.code_challenge) ∧
    (cc v ≠ sc.code_challenge →
      Luvya.oauth_token cc fetch sessions now store req =
        (store, Luvya.TokenResponse.error "invalid_code_verifier")) ∧
    ((∃ tok scope,
        Fastmcp.oauth_token cc now fstore req =
          (dictErase fstore c,
           Fastmcp.TokenResponse.success tok "Bearer" 3600 scope)) ↔
      cc v = fsc.code_challenge) ∧
    (cc v ≠ fsc.code_challenge →
      Fastmcp.oauth_token cc now fstore req =
        (fstore, Fastmcp.TokenResponse.error "invalid_code_verifier")) := by
  have hfc : falsy req.code = false := by
    rw [hcode]; exact falsy_some_of_ne c hc
  have hfv : falsy req.code_verifier = false := by
    rw [hverif]; exact falsy_some_of_ne v hv
  have hgetc : req.code.getD "" = c := by rw [hcode]; rfl
  have hgetv : req.code_verifier.getD "" = v := by rw [hverif]; rfl
  refine ⟨⟨?_, ?_⟩, ?_, ⟨?_, ?_⟩, ?_⟩
  · rintro ⟨tok, scope, heq⟩
    by_contra hne
    have hmm := Luvya.oauth_token_verifier_mismatch cc fetch sessions now
      store req sc hgrant hfc hfv (by rw [hgetc]; exact hlookL) hexpL hredL
      (by rw [hgetv]; exact hne)
    rw [hmm] at heq
    simp at heq
  · intro hcc
    have hs := Luvya.oauth_token_success_eq cc fetch sessions now store req
      sc hgrant hfc hfv (by rw [hgetc]; exact hlookL) hexpL hredL
      (by rw [hgetv]; exact hcc)
    rw [hgetc] at hs
    exact ⟨_, _, hs⟩
  · intro hne
    exact Luvya.oauth_token_verifier_mismatch cc fetch sessions now store
      req sc hgrant hfc hfv (by rw [hgetc]; exact hlookL) hexpL hredL
      (by rw [hgetv]; exact hne)
  · rintro ⟨tok, scope, heq⟩
    by_contra hne
    have hmm := Fastmcp.token_verifier_mismatch cc now fstore req fsc
      hgrant hfc hfv (by rw [hgetc]; exact hlookF) hexpF hredF
      (by rw [hgetv]; exact hne)
    rw [hmm] at heq
    simp at heq
  · intro hcc
    have hs := Fastmcp.token_success_eq cc now fstore req fsc hgrant
      hfc hfv (by rw [hgetc]; exact hlookF) hexpF hredF
      (by rw [hgetv]; exact hcc)
    rw [hgetc] at hs
    exact ⟨_, _, hs⟩
  · intro hne
    exact Fastmcp.token_verifier_mismatch cc now fstore req fsc hgrant
      hfc hfv (by rw [hgetc]; exact hlookF) hexpF hredF
      (by rw [hgetv]; exact hne)

/-- Witness for C2 (amended) at the sample code and challenge. -/
theorem claim_C2_pkce_iff_witness :
    ((∃ tok scope,
        Luvya.oauth_token ccCH noFetch [] 100 sampleStore
            sampleTokenRequest =
          (dictErase sampleStore "abc123",
           Luvya.TokenResponse.success tok "Bearer" 3600 scope)) ↔
      ccCH "ver" = "CH") ∧
    (ccCH "ver" ≠ "CH" →
      Luvya.oauth_token ccCH noFetch [] 100 sampleStore sampleTokenRequest =
        (sampleStore, Luvya.TokenResponse.error "invalid_code_verifier")) ∧
    ((∃ tok scope,
        Fastmcp.oauth_token ccCH 100 sampleFStore sampleTokenRequest =
          (dictErase sampleFStore "abc123",
           Fastmcp.TokenResponse.success tok "Bearer" 3600 scope)) ↔
      ccCH "ver" = "CH") ∧
    (ccCH "ver" ≠ "CH" →
      Fastmcp.oauth_token ccCH 100 sampleFStore sampleTokenRequest =
        (sampleFStore, Fastmcp.TokenResponse.error "invalid_code_verifier")) :=
  claim_C2_pkce_iff ccCH noFetch [] 100 sampleStore sampleFStore
    sampleTokenRequest "abc123" "ver" (Luvya.mkOAuthCode sampleAuthRequest 0)
    (Fastmcp.mkOAuthCode sampleAuthRequest 0) rfl rfl (by decide) (by decide)
    rfl rfl rfl (by decide) (by decide) rfl rfl

/-- C3: redeeming a stored code whose `expires_at` is already past fails
with `"expired_code"` and deletes the code, no matter what redirect_uri or
verifier the request presents; and authorize stamps `expires_at` five
minutes after creation. Proved for both revisions. -/
theorem claim_C3_expired_code (cc : String → String)
    (fetch : Option String → Option Luvya.SupabaseUserData)
    (sessions : List (String × Luvya.Session)) (now now₀ : Nat)
    (store : List (String × Luvya.OAuthCode))
    (fstore : List (String × Fastmcp.OAuthCode))
    (req : TokenRequest) (c v : String) (areq : AuthRequest)
    (sc : Luvya.OAuthCode) (fsc : Fastmcp.OAuthCode)
    (hlookL : dictLookup store c = some sc)
    (hlookF : dictLookup fstore c = some fsc)
    (hexpL : sc.expires_at < now) (hexpF : fsc.expires_at < now)
    (hc : c ≠ "") (hv : v ≠ "")
    (hgrant : req.grant_type.getD "authorization_code" = "authorization_code")
    (hcode : req.code = some c)
    (hverif : req.code_verifier = some v) :
    Luvya.oauth_token cc fetch sessions now store req =
      (dictErase store c, Luvya.TokenResponse.error "expired_code") ∧
    Fastmcp.oauth_token cc now fstore req =
      (dictErase fstore c, Fastmcp.TokenResponse.error "expired_code") ∧
    (Luvya.mkOAuthCode areq now₀).expires_at = now₀ + 5 * 60 ∧
    (Fastmcp.mkOAuthCode areq now₀).expires_at = now₀ + 5 * 60 := by
  have hfc : falsy req.code = false := by
    rw [hcode]; exact falsy_some_of_ne c hc
  have hfv : falsy req.code_verifier = false := by
    rw [hverif]; exact falsy_some_of_ne v hv
  have hgetc : req.code.getD "" = c := by rw [hcode]; rfl
  refine ⟨?_, ?_, rfl, rfl⟩
  · have h := Luvya.oauth_token_expired cc fetch sessions now store req sc
      hgrant hfc hfv (by rw [hgetc]; exact hlookL) hexpL
    rwa [hgetc] at h
  · have h := Fastmcp.token_expired cc now fstore req fsc hgrant hfc
      hfv (by rw [hgetc]; exact hlookF) hexpF
    rwa [hgetc] at h

/-- Witness for C3: the sample code minted at time 0 expires at 300 and is
presented at time 500 with a wrong verifier and an absent redirect_uri;
both revisions still answer `"expired_code"` and drop the code. -/
theorem claim_C3_expired_code_witness :
    Luvya.oauth_token (fun _ => "XX") noFetch [] 500 sampleStore
        { grant_type := none, code := some "abc123", client_id := none
          client_secret := none, redirect_uri := none
          code_verifier := some "bad" } =
      (dictErase sampleStore "abc123",
       Luvya.TokenResponse.error "expired_code") ∧
    Fastmcp.oauth_token (fun _ => "XX") 500 sampleFStore
        { grant_type := none, code := some "abc123", client_id := none
          client_secret := none, redirect_uri := none
          code_verifier := some "bad" } =
      (dictErase sampleFStore "abc123",
       Fastmcp.TokenResponse.error "expired_code") ∧
    (Luvya.mkOAuthCode sampleAuthRequest 0).expires_at = 0 + 5 * 60 ∧
    (Fastmcp.mkOAuthCode sampleAuthRequest 0).expires_at = 0 + 5 * 60 :=
  claim_C3_expired_code (fun _ => "XX") noFetch [] 500 0 sampleStore
    sampleFStore
    { grant_type := none, code := some "abc123", client_id := none
      client_secret := none, redirect_uri := none
      code_verifier := some "bad" }
    "abc123" "bad" sampleAuthRequest (Luvya.mkOAuthCode sampleAuthRequest 0)
    (Fastmcp.mkOAuthCode sampleAuthRequest 0) rfl rfl (by decide) (by decide)
    (by decide) (by decide) rfl rfl rfl

/-- C4: for a stored, unexpired code, a token request whose redirect_uri is
not exactly the stored one — including an absent redirect_uri — fails with
`"invalid_redirect_uri"` and leaves the store unchanged, so no token is
issued. Proved for both revisions. -/
theorem claim_C4_redirect_exact_match (cc : String → String)
    (fetch : Option String → Option Luvya.SupabaseUserData)
    (sessions : List (String × Luvya.Session)) (now : Nat)
    (store : List (String × Luvya.OAuthCode))
    (fstore : List (String × Fastmcp.OAuthCode))
    (req : TokenRequest) (c v : String)
    (sc : Luvya.OAuthCode) (fsc : Fastmcp.OAuthCode)
    (hlookL : dictLookup store c = some sc)
    (hlookF : dictLookup fstore c = some fsc)
    (hexpL : ¬ sc.expires_at < now) (hexpF : ¬ fsc.expires_at < now)
    (hc : c ≠ "") (hv : v ≠ "")
    (hgrant : req.grant_type.getD "authorization_code" = "authorization_code")
    (hcode : req.code = some c)
    (hverif : req.code_verifier = some v)
    (hredL : req.redirect_uri ≠ some sc.redirect_uri)
    (hredF : req.redirect_uri ≠ some fsc.redirect_uri) :
    Luvya.oauth_token cc fetch sessions now store req =
      (store, Luvya.TokenResponse.error "invalid_redirect_uri") ∧
    Fastmcp.oauth_token cc now fstore req =
      (fstore, Fastmcp.TokenResponse.error "invalid_redirect_uri") := by
  have hfc : falsy req.code = false := by
    rw [hcode]; exact falsy_some_of_ne c hc
  have hfv : falsy req.code_verifier = false := by
    rw [hverif]; exact falsy_some_of_ne v hv
  have hgetc : req.code.getD "" = c := by rw [hcode]; rfl
  exact ⟨Luvya.oauth_token_redirect_mismatch cc fetch sessions now store req
      sc hgrant hfc hfv (by rw [hgetc]; exact hlookL) hexpL hredL,
    Fastmcp.token_redirect_mismatch cc now fstore req fsc hgrant hfc
      hfv (by rw [hgetc]; exact hlookF) hexpF hredF⟩

/-- Witness for C4: presenting the sample unexpired code with an absent
redirect_uri fails with `"invalid_redirect_uri"` in both revisions. -/
theorem claim_C4_redirect_exact_match_witness :
    Luvya.oauth_token ccCH noFetch [] 100 sampleStore
        { grant_type := none, code := some "abc123", client_id := none
          client_secret := none, redirect_uri := none
          code_verifier := some "ver" } =
      (sampleStore, Luvya.TokenResponse.error "invalid_redirect_uri") ∧
    Fastmcp.oauth_token ccCH 100 sampleFStore
        { grant_type := none, code := some "abc123", client_id := none
          client_secret := none, redirect_uri := none
          code_verifier := some "ver" } =
      (sampleFStore, Fastmcp.TokenResponse.error "invalid_redirect_uri") :=
  claim_C4_redirect_exact_match ccCH noFetch [] 100 sampleStore sampleFStore
    { grant_type := none, code := some "abc123", client_id := none
      client_secret := none, redirect_uri := none
      code_verifier := some "ver" }
    "abc123" "ver" (Luvya.mkOAuthCode sampleAuthRequest 0)
    (Fastmcp.mkOAuthCode sampleAuthRequest 0) rfl rfl (by decide) (by decide)
    (by decide) (by decide) rfl rfl rfl (by decide) (by decide)

/-- Counterexample to C5 as stated: in the `src/luvya_server.py` revision a
code with no attached session is redeemed successfully, but the issued
token's `user_id` claim is `None` — not the `"mcp-user"` placeholder the
claim names. The `.get("user_id", "mcp-user")` default
(`src/luvya_server.py:1033`) is dead because the stored entry always
carries the `user_id` key (created as `None` at
`src/luvya_server.py:284`). -/
theorem claim_C5_counterexample :
    Luvya.oauth_token ccCH noFetch [] 100 sampleStore sampleTokenRequest =
      (dictErase sampleStore "abc123",
       Luvya.TokenResponse.success (Luvya.generate_auth_token 100 none none)
         "Bearer" 3600 "user") ∧
    (Luvya.generate_auth_token 100 none none).payload.user_id = none ∧
    (none : Option String) ≠ some "mcp-user" ∧
    (none : Option String) ≠ some "demo-user" :=
  ⟨rfl, rfl, by decide, by decide⟩

/-- C5 (amended): with no user session attached, the token endpoint still
succeeds in both revisions, but the principals differ: the FastMCP revision
issues the token for the placeholder `"demo-user"` (stored at authorize
time), while the FastAPI revision issues the token with `user_id`/`sub`
`None` — its `"mcp-user"` fallback never applies because the stored entry
always carries the `user_id` key. Either way a token is minted for an
unauthenticated principal. -/
theorem claim_C5_unauthenticated_principal (cc : String → String)
    (fetch : Option String → Option Luvya.SupabaseUserData)
    (sessions : List (String × Luvya.Session)) (now now₀ : Nat)
    (store : List (String × Luvya.OAuthCode))
    (fstore : List (String × Fastmcp.OAuthCode))
    (req : TokenRequest) (c v : String) (areq : AuthRequest)
    (sc : Luvya.OAuthCode) (fsc : Fastmcp.OAuthCode)
    (hlookL : dictLookup store c = some sc)
    (hU : sc.user_id = none) (hS : sc.session = none)
    (hlookF : dictLookup fstore c = some fsc)
    (hUF : fsc.user_id = "demo-user")
    (hc : c ≠ "") (hv : v ≠ "")
    (hgrant : req.grant_type.getD "authorization_code" = "authorization_code")
    (hcode : req.code = some c)
    (hverif : req.code_verifier = some v)
    (hexpL : ¬ sc.expires_at < now) (hexpF : ¬ fsc.expires_at < now)
    (hredL : req.redirect_uri = some sc.redirect_uri)
    (hredF : req.redirect_uri = some fsc.redirect_uri)
    (hccL : cc v = sc.code_challenge) (hccF : cc v = fsc.code_challenge) :
    (Luvya.oauth_token cc fetch sessions now store req =
      (dictErase store c,
       Luvya.TokenResponse.success
         (Luvya.generate_auth_token now none (fetch none)) "Bearer" 3600
         sc.scope) ∧
     (Luvya.generate_auth_token now none (fetch none)).payload.user_id =
       none ∧
     (Luvya.generate_auth_token now none (fetch none)).payload.sub = none ∧
     (Luvya.mkOAuthCode areq now₀).user_id = none ∧
     (Luvya.mkOAuthCode areq now₀).session = none) ∧
    (Fastmcp.oauth_token cc now fstore req =
      (dictErase fstore c,
       Fastmcp.TokenResponse.success
         (Fastmcp.generate_auth_token now "demo-user") "Bearer" 3600
         fsc.scope) ∧
     (Fastmcp.generate_auth_token now "demo-user").payload.user_id =
       "demo-user" ∧
     (Fastmcp.mkOAuthCode areq now₀).user_id = "demo-user") := by
  have hfc : falsy req.code = false := by
    rw [hcode]; exact falsy_some_of_ne c hc
  have hfv : falsy req.code_verifier = false := by
    rw [hverif]; exact falsy_some_of_ne v hv
  have hgetc : req.code.getD "" = c := by rw [hcode]; rfl
  have hgetv : req.code_verifier.getD "" = v := by rw [hverif]; rfl
  have hsupa : Luvya.token_supabase fetch sessions sc = fetch none := by
    simp [Luvya.token_supabase, Luvya.session_supabase, hS, hU]
  refine ⟨⟨?_, ?_, ?_, rfl, rfl⟩, ⟨?_, rfl, rfl⟩⟩
  · have hs := Luvya.oauth_token_success_eq cc fetch sessions now store req
      sc hgrant hfc hfv (by rw [hgetc]; exact hlookL) hexpL hredL
      (by rw [hgetv]; exact hccL)
    rw [hgetc, hU, hsupa] at hs
    exact hs
  · cases fetch none <;> rfl
  · cases fetch none <;> rfl
  · have hs := Fastmcp.token_success_eq cc now fstore req fsc hgrant
      hfc hfv (by rw [hgetc]; exact hlookF) hexpF hredF
      (by rw [hgetv]; exact hccF)
    rw [hgetc, hUF] at hs
    exact hs

/-- Witness for C5 (amended) at the sample no-session code. -/
theorem claim_C5_unauthenticated_principal_witness :
    (Luvya.oauth_token ccCH noFetch [] 100 sampleStore sampleTokenRequest =
      (dictErase sampleStore "abc123",
       Luvya.TokenResponse.success
         (Luvya.generate_auth_token 100 none (noFetch none)) "Bearer" 3600
         "user") ∧
     (Luvya.generate_auth_token 100 none
         (noFetch none)).payload.user_id = none ∧
     (Luvya.generate_auth_token 100 none (noFetch none)).payload.sub =
       none ∧
     (Luvya.mkOAuthCode sampleAuthRequest 0).user_id = none ∧
     (Luvya.mkOAuthCode sampleAuthRequest 0).session = none) ∧
    (Fastmcp.oauth_token ccCH 100 sampleFStore sampleTokenRequest =
      (dictErase sampleFStore "abc123",
       Fastmcp.TokenResponse.success
         (Fastmcp.generate_auth_token 100 "demo-user") "Bearer" 3600
         "user") ∧
     (Fastmcp.generate_auth_token 100 "demo-user").payload.user_id =
       "demo-user" ∧
     (Fastmcp.mkOAuthCode sampleAuthRequest 0).user_id = "demo-user") :=
  claim_C5_unauthenticated_principal ccCH noFetch [] 100 0 sampleStore
    sampleFStore sampleTokenRequest "abc123" "ver" sampleAuthRequest
    (Luvya.mkOAuthCode sampleAuthRequest 0)
    (Fastmcp.mkOAuthCode sampleAuthRequest 0) rfl rfl rfl rfl rfl
    (by decide) (by decide) rfl rfl rfl (by decide) (by decide) rfl rfl rfl
    rfl

/-- Counterexample to C6 as stated: a request with a missing client_id is
rejected with `"missing_required_parameters"`, not `"invalid_request"`; and
a missing response_type does not fail at all — the FastAPI parameter
default `"code"` applies and a code IS stored. Shown for both revisions. -/
theorem claim_C6_counterexample :
    Luvya.oauth_start 0 "abc123" []
        { sampleAuthRequest with client_id := none } =
      ([], AuthResponse.error "missing_required_parameters") ∧
    Fastmcp.oauth_authorize 0 "abc123" []
        { sampleAuthRequest with client_id := none } =
      ([], AuthResponse.error "missing_required_parameters") ∧
    "missing_required_parameters" ≠ "invalid_request" ∧
    Luvya.oauth_start 0 "abc123" []
        { sampleAuthRequest with response_type := none } =
      ([("abc123",
         Luvya.mkOAuthCode { sampleAuthRequest with response_type := none }
           0)], AuthResponse.html) ∧
    Fastmcp.oauth_authorize 0 "abc123" []
        { sampleAuthRequest with response_type := none } =
      ([("abc123",
         Fastmcp.mkOAuthCode { sampleAuthRequest with response_type := none }
           0)], AuthResponse.html) :=
  ⟨rfl, rfl, by decide, rfl, rfl⟩

/-- C6 (amended): the authorization endpoints of both revisions reject — and
store no code for — a present response_type other than `"code"` (error
`"invalid_response_type"`), a missing/empty client_id, redirect_uri or
code_challenge (error `"missing_required_parameters"`), and a present
code_challenge_method other than `"S256"` (error
`"invalid_code_challenge_method"`); none of these is the single error
string `"invalid_request"` the spec names, and a missing response_type or
code_challenge_method falls back to the parameter defaults `"code"`/`"S256"`
instead of failing. -/
theorem claim_C6_authorize_validation (now : Nat) (auth_code : String)
    (store : List (String × Luvya.OAuthCode))
    (fstore : List (String × Fastmcp.OAuthCode)) (req : AuthRequest) :
    (req.response_type.getD "code" ≠ "code" →
      Luvya.oauth_start now auth_code store req =
        (store, AuthResponse.error "invalid_response_type") ∧
      Fastmcp.oauth_authorize now auth_code fstore req =
        (fstore, AuthResponse.error "invalid_response_type")) ∧
    (req.response_type.getD "code" = "code" →
      (falsy req.client_id || falsy req.redirect_uri ||
        falsy req.code_challenge) = true →
      Luvya.oauth_start now auth_code store req =
        (store, AuthResponse.error "missing_required_parameters") ∧
      Fastmcp.oauth_authorize now auth_code fstore req =
        (fstore, AuthResponse.error "missing_required_parameters")) ∧
    (req.response_type.getD "code" = "code" →
      (falsy req.client_id || falsy req.redirect_uri ||
        falsy req.code_challenge) = false →
      req.code_challenge_method.getD "S256" ≠ "S256" →
      Luvya.oauth_start now auth_code store req =
        (store, AuthResponse.error "invalid_code_challenge_method") ∧
      Fastmcp.oauth_authorize now auth_code fstore req =
        (fstore, AuthResponse.error "invalid_code_challenge_method")) := by
  refine ⟨fun h1 => ⟨?_, ?_⟩, fun h1 h2 => ⟨?_, ?_⟩, fun h1 h2 h3 => ⟨?_, ?_⟩⟩
  · simp [Luvya.oauth_start, h1]
  · simp [Fastmcp.oauth_authorize, h1]
  · simp [Luvya.oauth_start, h1, h2]
  · simp [Fastmcp.oauth_authorize, h1, h2]
  · simp [Luvya.oauth_start, h1, h2, h3]
  · simp [Fastmcp.oauth_authorize, h1, h2, h3]

/-- Witness for C6 (amended): each rejection branch exercised at a concrete
request derived from the sample authorize request. -/
theorem claim_C6_authorize_validation_witness :
    (Luvya.oauth_start 0 "x" []
        { sampleAuthRequest with response_type := some "token" } =
      ([], AuthResponse.error "invalid_response_type") ∧
     Fastmcp.oauth_authorize 0 "x" []
        { sampleAuthRequest with response_type := some "token" } =
      ([], AuthResponse.error "invalid_response_type")) ∧
    (Luvya.oauth_start 0 "x" []
        { sampleAuthRequest with redirect_uri := none } =
      ([], AuthResponse.error "missing_required_parameters") ∧
     Fastmcp.oauth_authorize 0 "x" []
        { sampleAuthRequest with redirect_uri := none } =
      ([], AuthResponse.error "missing_required_parameters")) ∧
    (Luvya.oauth_start 0 "x" []
        { sampleAuthRequest with code_challenge_method := some "plain" } =
      ([], AuthResponse.error "invalid_code_challenge_method") ∧
     Fastmcp.oauth_authorize 0 "x" []
        { sampleAuthRequest with code_challenge_method := some "plain" } =
      ([], AuthResponse.error "invalid_code_challenge_method")) :=
  ⟨(claim_C6_authorize_validation 0 "x" [] []
      { sampleAuthRequest with response_type := some "token" }).1
    (by decide),
   (claim_C6_authorize_validation 0 "x" [] []
      { sampleAuthRequest with redirect_uri := none }).2.1
    (by decide) (by decide),
   (claim_C6_authorize_validation 0 "x" [] []
      { sampleAuthRequest with code_challenge_method := some "plain" }).2.2
    (by decide) (by decide) (by decide)⟩

/-- Counterexample to C7 as stated: a token request with
`grant_type = "authorization_code"` but no code fails with
`"missing_required_parameters"`, not `"invalid_request"`, in both
revisions. -/
theorem claim_C7_counterexample :
    Luvya.oauth_token ccCH noFetch [] 100 sampleStore
        { sampleTokenRequest with code := none } =
      (sampleStore,
       Luvya.TokenResponse.error "missing_required_parameters") ∧
    Fastmcp.oauth_token ccCH 100 sampleFStore
        { sampleTokenRequest with code := none } =
      (sampleFStore,
       Fastmcp.TokenResponse.error "missing_required_parameters") ∧
    "missing_required_parameters" ≠ "invalid_request" :=
  ⟨rfl, rfl, by decide⟩

/-- C7 (amended): on both revisions' token endpoints, a grant_type other
than `"authorization_code"` fails with `"unsupported_grant_type"`; a
missing/empty code or code_verifier (with the right grant_type) fails with
`"missing_required_parameters"` — not `"invalid_request"` as the spec
says —; and a presented code absent from the store fails with
`"invalid_grant"`. The store is unchanged in each case. -/
theorem claim_C7_token_validation (cc : String → String)
    (fetch : Option String → Option Luvya.SupabaseUserData)
    (sessions : List (String × Luvya.Session)) (now : Nat)
    (store : List (String × Luvya.OAuthCode))
    (fstore : List (String × Fastmcp.OAuthCode)) (req : TokenRequest) :
    (req.grant_type.getD "authorization_code" ≠ "authorization_code" →
      Luvya.oauth_token cc fetch sessions now store req =
        (store, Luvya.TokenResponse.error "unsupported_grant_type") ∧
      Fastmcp.oauth_token cc now fstore req =
        (fstore, Fastmcp.TokenResponse.error "unsupported_grant_type")) ∧
    (req.grant_type.getD "authorization_code" = "authorization_code" →
      (falsy req.code || falsy req.code_verifier) = true →
      Luvya.oauth_token cc fetch sessions now store req =
        (store, Luvya.TokenResponse.error "missing_required_parameters") ∧
      Fastmcp.oauth_token cc now fstore req =
        (fstore,
         Fastmcp.TokenResponse.error "missing_required_parameters")) ∧
    (req.grant_type.getD "authorization_code" = "authorization_code" →
      falsy req.code = false → falsy req.code_verifier = false →
      dictLookup store (req.code.getD "") = none →
      Luvya.oauth_token cc fetch sessions now store req =
        (store, Luvya.TokenResponse.error "invalid_grant")) ∧
    (req.grant_type.getD "authorization_code" = "authorization_code" →
      falsy req.code = false → falsy req.code_verifier = false →
      dictLookup fstore (req.code.getD "") = none →
      Fastmcp.oauth_token cc now fstore req =
        (fstore, Fastmcp.TokenResponse.error "invalid_grant")) := by
  refine ⟨fun h1 => ⟨?_, ?_⟩, fun h1 h2 => ⟨?_, ?_⟩,
    fun h1 h2 h3 h4 => ?_, fun h1 h2 h3 h4 => ?_⟩
  · simp [Luvya.oauth_token, h1]
  · simp [Fastmcp.oauth_token, h1]
  · simp [Luvya.oauth_token, h1, h2]
  · simp [Fastmcp.oauth_token, h1, h2]
  · exact Luvya.oauth_token_unknown_code cc fetch sessions now store req h1
      h2 h3 h4
  · exact Fastmcp.token_unknown_code cc now fstore req h1 h2 h3 h4

/-- Witness for C7 (amended): each rejection branch exercised at a concrete
token request. -/
theorem claim_C7_token_validation_witness :
    (Luvya.oauth_token ccCH noFetch [] 100 sampleStore
        { sampleTokenRequest with grant_type := some "password" } =
      (sampleStore, Luvya.TokenResponse.error "unsupported_grant_type") ∧
     Fastmcp.oauth_token ccCH 100 sampleFStore
        { sampleTokenRequest with grant_type := some "password" } =
      (sampleFStore,
       Fastmcp.TokenResponse.error "unsupported_grant_type")) ∧
    (Luvya.oauth_token ccCH noFetch [] 100 sampleStore
        { sampleTokenRequest with code_verifier := none } =
      (sampleStore,
       Luvya.TokenResponse.error "missing_required_parameters") ∧
     Fastmcp.oauth_token ccCH 100 sampleFStore
        { sampleTokenRequest with code_verifier := none } =
      (sampleFStore,
       Fastmcp.TokenResponse.error "missing_required_parameters")) ∧
    Luvya.oauth_token ccCH noFetch [] 100 sampleStore
        { sampleTokenRequest with code := some "unknown" } =
      (sampleStore, Luvya.TokenResponse.error "invalid_grant") ∧
    Fastmcp.oauth_token ccCH 100 sampleFStore
        { sampleTokenRequest with code := some "unknown" } =
      (sampleFStore, Fastmcp.TokenResponse.error "invalid_grant") :=
  ⟨(claim_C7_token_validation ccCH noFetch [] 100 sampleStore sampleFStore
      { sampleTokenRequest with grant_type := some "password" }).1
    (by decide),
   (claim_C7_token_validation ccCH noFetch [] 100 sampleStore sampleFStore
      { sampleTokenRequest with code_verifier := none }).2.1 rfl rfl,
   (claim_C7_token_validation ccCH noFetch [] 100 sampleStore sampleFStore
      { sampleTokenRequest with code := some "unknown" }).2.2.1 rfl
    (by decide) (by decide) rfl,
   (claim_C7_token_validation ccCH noFetch [] 100 sampleStore sampleFStore
      { sampleTokenRequest with code := some "unknown" }).2.2.2 rfl
    (by decide) (by decide) rfl⟩

/-- Counterexample to C8 as stated: an expired properly-signed token and an
unexpired token signed with a different secret make `jwt.decode` raise
distinct exceptions, but both verification functions of
`src/luvya_server.py` collapse them to `None`: the verification results are
equal, so the two failure kinds are not distinguished in the result and no
`"expired"` / `"invalid_signature_or_claims"` label is surfaced. -/
theorem claim_C8_counterexample :
    Luvya.jwtDecode Luvya.JWT_SECRET 10 ⟨samplePayload, Luvya.JWT_SECRET⟩ =
      Except.error Luvya.JwtError.expiredSignature ∧
    Luvya.jwtDecode Luvya.JWT_SECRET 10
        ⟨{ samplePayload with exp := 1000 }, "other-secret"⟩ =
      Except.error Luvya.JwtError.invalidToken ∧
    Luvya.verify_token 10 ⟨samplePayload, Luvya.JWT_SECRET⟩ = none ∧
    Luvya.verify_token 10
        ⟨{ samplePayload with exp := 1000 }, "other-secret"⟩ = none ∧
    Luvya.verify_token 10 ⟨samplePayload, Luvya.JWT_SECRET⟩ =
      Luvya.verify_token 10
        ⟨{ samplePayload with exp := 1000 }, "other-secret"⟩ ∧
    Luvya.verify_auth_token 10 ⟨samplePayload, Luvya.JWT_SECRET⟩ =
      Luvya.verify_auth_token 10
        ⟨{ samplePayload with exp := 1000 }, "other-secret"⟩ :=
  ⟨rfl, rfl, rfl, rfl, rfl, rfl⟩

/-- C8 (amended): a properly-signed token whose expiry is past fails — the
decode step raises `ExpiredSignatureError` — and a token signed with a
different secret fails — the decode step raises `InvalidTokenError` — and
the two exceptions are distinct; but both `LuvyaTokenVerifier.verify_token`
and `verify_auth_token` catch them and return `None`, so the two failure
kinds are NOT distinguished in the verification result. -/
theorem claim_C8_verify_failures (now : Nat) (t : Luvya.Jwt) :
    (t.secret = Luvya.JWT_SECRET → t.payload.exp < now →
      Luvya.jwtDecode Luvya.JWT_SECRET now t =
        Except.error Luvya.JwtError.expiredSignature ∧
      Luvya.verify_token now t = none ∧
      Luvya.verify_auth_token now t = none) ∧
    (t.secret ≠ Luvya.JWT_SECRET →
      Luvya.jwtDecode Luvya.JWT_SECRET now t =
        Except.error Luvya.JwtError.invalidToken ∧
      Luvya.verify_token now t = none ∧
      Luvya.verify_auth_token now t = none) ∧
    Luvya.JwtError.expiredSignature ≠ Luvya.JwtError.invalidToken := by
  refine ⟨fun hs he => ?_, fun hs => ?_, by decide⟩
  · have hd : Luvya.jwtDecode Luvya.JWT_SECRET now t =
        Except.error Luvya.JwtError.expiredSignature := by
      simp [Luvya.jwtDecode, hs, he]
    exact ⟨hd, by simp [Luvya.verify_token, hd],
      by simp [Luvya.verify_auth_token, hd]⟩
  · have hd : Luvya.jwtDecode Luvya.JWT_SECRET now t =
        Except.error Luvya.JwtError.invalidToken := by
      simp [Luvya.jwtDecode, hs]
    exact ⟨hd, by simp [Luvya.verify_token, hd],
      by simp [Luvya.verify_auth_token, hd]⟩

/-- Witness for C8 (amended) at a concrete expired token and a concrete
wrong-secret token. -/
theorem claim_C8_verify_failures_witness :
    (Luvya.jwtDecode Luvya.JWT_SECRET 10 ⟨samplePayload, Luvya.JWT_SECRET⟩ =
       Except.error Luvya.JwtError.expiredSignature ∧
     Luvya.verify_token 10 ⟨samplePayload, Luvya.JWT_SECRET⟩ = none ∧
     Luvya.verify_auth_token 10 ⟨samplePayload, Luvya.JWT_SECRET⟩ = none) ∧
    (Luvya.jwtDecode Luvya.JWT_SECRET 10
        ⟨{ samplePayload with exp := 1000 }, "other-secret"⟩ =
       Except.error Luvya.JwtError.invalidToken ∧
     Luvya.verify_token 10
        ⟨{ samplePayload with exp := 1000 }, "other-secret"⟩ = none ∧
     Luvya.verify_auth_token 10
        ⟨{ samplePayload with exp := 1000 }, "other-secret"⟩ = none) :=
  ⟨(claim_C8_verify_failures 10 ⟨samplePayload, Luvya.JWT_SECRET⟩).1 rfl
    (by decide),
   (claim_C8_verify_failures 10
      ⟨{ samplePayload with exp := 1000 }, "other-secret"⟩).2.1
    (by decide)⟩

/-- C9: in the `src/luvya_server.py` revision, a syntactically valid
authorize request whose redirect_uri is outside the allow-list — exactly
`https://chatgpt.com` and `https://chat.openai.com` — fails with
`"invalid_redirect_uri"` and stores no code. -/
theorem claim_C9_redirect_allowlist (now : Nat) (auth_code : String)
    (store : List (String × Luvya.OAuthCode)) (req : AuthRequest)
    (h1 : req.response_type.getD "code" = "code")
    (h2 : (falsy req.client_id || falsy req.redirect_uri ||
      falsy req.code_challenge) = false)
    (h3 : req.code_challenge_method.getD "S256" = "S256")
    (h4 : req.redirect_uri.getD "" ∉ Luvya.allowed_redirect_uris) :
    Luvya.oauth_start now auth_code store req =
      (store, AuthResponse.error "invalid_redirect_uri") ∧
    Luvya.allowed_redirect_uris =
      ["https://chatgpt.com", "https://chat.openai.com"] := by
  exact ⟨by simp [Luvya.oauth_start, h1, h2, h3, h4], rfl⟩

/-- Witness for C9: an otherwise valid request redirecting to
`https://evil.example` is rejected and nothing is stored. -/
theorem claim_C9_redirect_allowlist_witness :
    Luvya.oauth_start 0 "abc123" []
        { sampleAuthRequest with redirect_uri := some "https://evil.example" } =
      ([], AuthResponse.error "invalid_redirect_uri") ∧
    Luvya.allowed_redirect_uris =
      ["https://chatgpt.com", "https://chat.openai.com"] :=
  claim_C9_redirect_allowlist 0 "abc123" []
    { sampleAuthRequest with redirect_uri := some "https://evil.example" }
    rfl (by decide) rfl (by decide)

/-- C10: on both revisions' token endpoints, every request that errors with
anything other than `"expired_code"` leaves the authorization-code store
unchanged; the store ever changes only by deleting the presented code, and
only on the expired-code path or on a successful exchange. -/
theorem claim_C10_error_atomicity (cc : String → String)
    (fetch : Option String → Option Luvya.SupabaseUserData)
    (sessions : List (String × Luvya.Session)) (now : Nat)
    (store : List (String × Luvya.OAuthCode))
    (fstore : List (String × Fastmcp.OAuthCode)) (req : TokenRequest) :
    (∀ e, (Luvya.oauth_token cc fetch sessions now store req).2 =
        Luvya.TokenResponse.error e → e ≠ "expired_code" →
      (Luvya.oauth_token cc fetch sessions now store req).1 = store) ∧
    ((Luvya.oauth_token cc fetch sessions now store req).1 = store ∨
      ((Luvya.oauth_token cc fetch sessions now store req).1 =
        dictErase store (req.code.getD "") ∧
       ((Luvya.oauth_token cc fetch sessions now store req).2 =
          Luvya.TokenResponse.error "expired_code" ∨
        ∃ tok s, (Luvya.oauth_token cc fetch sessions now store req).2 =
          Luvya.TokenResponse.success tok "Bearer" 3600 s))) ∧
    (∀ e, (Fastmcp.oauth_token cc now fstore req).2 =
        Fastmcp.TokenResponse.error e → e ≠ "expired_code" →
      (Fastmcp.oauth_token cc now fstore req).1 = fstore) ∧
    ((Fastmcp.oauth_token cc now fstore req).1 = fstore ∨
      ((Fastmcp.oauth_token cc now fstore req).1 =
        dictErase fstore (req.code.getD "") ∧
       ((Fastmcp.oauth_token cc now fstore req).2 =
          Fastmcp.TokenResponse.error "expired_code" ∨
        ∃ tok s, (Fastmcp.oauth_token cc now fstore req).2 =
          Fastmcp.TokenResponse.success tok "Bearer" 3600 s))) := by
  have hL : (∀ e, (Luvya.oauth_token cc fetch sessions now store req).2 =
        Luvya.TokenResponse.error e → e ≠ "expired_code" →
      (Luvya.oauth_token cc fetch sessions now store req).1 = store) ∧
      ((Luvya.oauth_token cc fetch sessions now store req).1 = store ∨
      ((Luvya.oauth_token cc fetch sessions now store req).1 =
        dictErase store (req.code.getD "") ∧
       ((Luvya.oauth_token cc fetch sessions now store req).2 =
          Luvya.TokenResponse.error "expired_code" ∨
        ∃ tok s, (Luvya.oauth_token cc fetch sessions now store req).2 =
          Luvya.TokenResponse.success tok "Bearer" 3600 s))) := by
    unfold Luvya.oauth_token
    split
    · exact ⟨fun e he hne => rfl, Or.inl rfl⟩
    · split
      · exact ⟨fun e he hne => rfl, Or.inl rfl⟩
      · dsimp only
        split
        · exact ⟨fun e he hne => rfl, Or.inl rfl⟩
        · split
          · refine ⟨fun e he hne => ?_, Or.inr ⟨rfl, Or.inl rfl⟩⟩
            injection he with h
            exact absurd h.symm hne
          · split
            · exact ⟨fun e he hne => rfl, Or.inl rfl⟩
            · split
              · exact ⟨fun e he hne => rfl, Or.inl rfl⟩
              · exact ⟨fun e he => by simp at he,
                  Or.inr ⟨rfl, Or.inr ⟨_, _, rfl⟩⟩⟩
  have hF : (∀ e, (Fastmcp.oauth_token cc now fstore req).2 =
        Fastmcp.TokenResponse.error e → e ≠ "expired_code" →
      (Fastmcp.oauth_token cc now fstore req).1 = fstore) ∧
      ((Fastmcp.oauth_token cc now fstore req).1 = fstore ∨
      ((Fastmcp.oauth_token cc now fstore req).1 =
        dictErase fstore (req.code.getD "") ∧
       ((Fastmcp.oauth_token cc now fstore req).2 =
          Fastmcp.TokenResponse.error "expired_code" ∨
        ∃ tok s, (Fastmcp.oauth_token cc now fstore req).2 =
          Fastmcp.TokenResponse.success tok "Bearer" 3600 s))) := by
    unfold Fastmcp.oauth_token
    split
    · exact ⟨fun e he hne => rfl, Or.inl rfl⟩
    · split
      · exact ⟨fun e he hne => rfl, Or.inl rfl⟩
      · dsimp only
        split
        · exact ⟨fun e he hne => rfl, Or.inl rfl⟩
        · split
          · refine ⟨fun e he hne => ?_, Or.inr ⟨rfl, Or.inl rfl⟩⟩
            injection he with h
            exact absurd h.symm hne
          · split
            · exact ⟨fun e he hne => rfl, Or.inl rfl⟩
            · split
              · exact ⟨fun e he hne => rfl, Or.inl rfl⟩
              · exact ⟨fun e he => by simp at he,
                  Or.inr ⟨rfl, Or.inr ⟨_, _, rfl⟩⟩⟩
  exact ⟨hL.1, hL.2, hF.1, hF.2⟩

/-- Witness for C10: a request presenting an unknown code errors with
`invalid_grant` and both stores are untouched. -/
theorem claim_C10_error_atomicity_witness :
    (Luvya.oauth_token ccCH noFetch [] 100 sampleStore
      { sampleTokenRequest with code := some "unknown" }).1 = sampleStore ∧
    (Fastmcp.oauth_token ccCH 100 sampleFStore
      { sampleTokenRequest with code := some "unknown" }).1 = sampleFStore :=
  ⟨(claim_C10_error_atomicity ccCH noFetch [] 100 sampleStore sampleFStore
      { sampleTokenRequest with code := some "unknown" }).1
    "invalid_grant" rfl (by decide),
   (claim_C10_error_atomicity ccCH noFetch [] 100 sampleStore sampleFStore
      { sampleTokenRequest with code := some "unknown" }).2.2.1
    "invalid_grant" rfl (by decide)⟩

end LuvyaMCP
